import Mathlib

/-!
Shallow embedding of the DayPlanner application (src/MainApp.py): the chat
bubble stem geometry, the chat canvas layout algorithm, the task capture
workflow, the checklist window hand-off, and the JSON persistence of the
task list.  Machine-measured geometry (the pixel height of a rendered
bubble bounding box) is passed in as an explicit parameter, since it is
produced by the rendering toolkit; every other computation is translated
from the source.
-/

/-! ## JSON persistence

Model of the Python library calls json.dump and json.load as used by
TaskWindow.save_state and the startup code, restricted to the data shape
the program persists: a flat list of strings.  Strings are modelled as
lists of unicode scalar values (Lean Char).  json.dump is modelled with
its default options (ensure_ascii=True, separators (", ", ": ")); json.load
is modelled as a parser for arrays of JSON strings returning none where the
library would raise. -/

/-- One lowercase hexadecimal digit, as produced by the serializer. -/
def hexDigit (n : Nat) : Char :=
  Char.ofNat (if n < 10 then 48 + n else 87 + n)

/-- Numeric value of a hexadecimal digit character; both cases accepted. -/
def hexVal (c : Char) : Option Nat :=
  if 48 ≤ c.toNat ∧ c.toNat ≤ 57 then some (c.toNat - 48)
  else if 97 ≤ c.toNat ∧ c.toNat ≤ 102 then some (c.toNat - 87)
  else if 65 ≤ c.toNat ∧ c.toNat ≤ 70 then some (c.toNat - 55)
  else none

/-- Four hex digits, most significant first, of a code unit below 0x10000. -/
def toHex4 (n : Nat) : List Char :=
  [hexDigit (n / 4096 % 16), hexDigit (n / 256 % 16), hexDigit (n / 16 % 16),
    hexDigit (n % 16)]

/-- Combined value of four hexadecimal digit characters. -/
def hex4 (a b c d : Char) : Option Nat :=
  match hexVal a, hexVal b, hexVal c, hexVal d with
  | some w, some x, some y, some z => some (4096 * w + 256 * x + 16 * y + z)
  | _, _, _, _ => none

/-- Escape of a single character, following json.dumps with the default
ensure_ascii=True: quote, backslash and the named control characters get
two-character escapes, other printable ASCII is emitted literally, and
everything else becomes a \uXXXX sequence (a surrogate pair for characters
beyond 0xFFFF). -/
def escapeChar (c : Char) : List Char :=
  if c = '"' then ['\\', '"']
  else if c = '\\' then ['\\', '\\']
  else if c = Char.ofNat 8 then ['\\', 'b']
  else if c = Char.ofNat 9 then ['\\', 't']
  else if c = Char.ofNat 10 then ['\\', 'n']
  else if c = Char.ofNat 12 then ['\\', 'f']
  else if c = Char.ofNat 13 then ['\\', 'r']
  else if 32 ≤ c.toNat ∧ c.toNat ≤ 126 then [c]
  else if c.toNat < 65536 then '\\' :: ('u' :: toHex4 c.toNat)
  else
    ('\\' :: ('u' :: toHex4 (55296 + (c.toNat - 65536) / 1024))) ++
      ('\\' :: ('u' :: toHex4 (56320 + (c.toNat - 65536) % 1024)))

/-- Escaped form of a whole string body. -/
def escapeList : List Char → List Char
  | [] => []
  | c :: cs => escapeChar c ++ escapeList cs

/-- A JSON string literal, quotes included. -/
def serializeString (s : List Char) : List Char :=
  '"' :: (escapeList s ++ ['"'])

/-- The comma-space separated items of a serialized array. -/
def sepJoin : List (List Char) → List Char
  | [] => []
  | [s] => serializeString s
  | s :: rest => serializeString s ++ (',' :: (' ' :: sepJoin rest))

/-- Model of json.dump on a list of strings: the exact character stream the
library writes to the file. -/
def jsonDumpList (l : List (List Char)) : List Char :=
  '[' :: (sepJoin l ++ [']'])

/-- JSON insignificant whitespace. -/
def isJsonWs (c : Char) : Bool :=
  c = ' ' || c = Char.ofNat 9 || c = Char.ofNat 10 || c = Char.ofNat 13

/-- Drop leading JSON whitespace. -/
def skipWs : List Char → List Char
  | [] => []
  | c :: r => if isJsonWs c then skipWs r else c :: r

/-- Parse four hexadecimal digits into their value and the rest. -/
def parseHex4 : List Char → Option (Nat × List Char)
  | a :: (b :: (c :: (d :: r))) => (hex4 a b c d).map (fun n => (n, r))
  | _ => none

/-- Parse the escape of a low surrogate, backslash first, and return its
code unit. -/
def parseLowSurrogate : List Char → Option (Nat × List Char)
  | e2 :: (u2 :: r) =>
    if e2 = '\\' ∧ u2 = 'u' then
      (parseHex4 r).bind (fun mr =>
        if 56320 ≤ mr.1 ∧ mr.1 < 57344 then some mr else none)
    else none
  | _ => none

/-- Decode a \uXXXX escape (the input starts after the u).  A high
surrogate must be followed by a low surrogate escape, as the decoder pairs
them into one character; a lone surrogate is rejected (it has no unicode
scalar value in the model). -/
def parseUEscape (r : List Char) : Option (Char × List Char) :=
  (parseHex4 r).bind (fun nr =>
    if nr.1 < 55296 ∨ 57344 ≤ nr.1 then some (Char.ofNat nr.1, nr.2)
    else if nr.1 < 56320 then
      (parseLowSurrogate nr.2).map (fun mr =>
        (Char.ofNat (65536 + (nr.1 - 55296) * 1024 + (mr.1 - 56320)), mr.2))
    else none)

/-- Decode one escape sequence (the input starts after the backslash);
returns the decoded character and the remaining input. -/
def parseEscapeChar : List Char → Option (Char × List Char)
  | [] => none
  | e :: r =>
    if e = '"' then some ('"', r)
    else if e = '\\' then some ('\\', r)
    else if e = '/' then some ('/', r)
    else if e = 'b' then some (Char.ofNat 8, r)
    else if e = 'f' then some (Char.ofNat 12, r)
    else if e = 'n' then some (Char.ofNat 10, r)
    else if e = 'r' then some (Char.ofNat 13, r)
    else if e = 't' then some (Char.ofNat 9, r)
    else if e = 'u' then parseUEscape r
    else none

/-- Parse the body of a JSON string up to its closing quote.  The fuel
argument bounds the number of decoded characters; each decoded character
consumes one unit, so any fuel above the decoded length suffices. -/
def parseStringBody : Nat → List Char → Option (List Char × List Char)
  | _, [] => none
  | 0, _ :: _ => none
  | fuel + 1, c :: rest =>
    if c = '"' then some ([], rest)
    else if c = '\\' then
      (parseEscapeChar rest).bind (fun dr =>
        (parseStringBody fuel dr.2).map (fun p => (dr.1 :: p.1, p.2)))
    else
      (parseStringBody fuel rest).map (fun p => (c :: p.1, p.2))

/-- Parse a JSON string literal, opening quote first. -/
def parseJsonString : List Char → Option (List Char × List Char)
  | [] => none
  | c :: r => if c = '"' then parseStringBody r.length r else none

/-- Parse the comma separated string items of an array together with the
closing bracket; returns the items and the input after the bracket.  The
fuel bounds the number of items. -/
def parseItems : Nat → List Char → Option (List (List Char) × List Char)
  | 0, _ => none
  | fuel + 1, l =>
    (parseJsonString l).bind (fun sr =>
      match skipWs sr.2 with
      | [] => none
      | c :: r2 =>
        if c = ',' then
          (parseItems fuel (skipWs r2)).map (fun st => (sr.1 :: st.1, st.2))
        else if c = ']' then some ([sr.1], r2)
        else none)

/-- Parse the inside of an array (the opening bracket already consumed and
whitespace skipped): the empty array or its comma separated items. -/
def jsonLoadArr : List Char → Option (List (List Char) × List Char)
  | [] => none
  | c2 :: r2 =>
    if c2 = ']' then some ([], r2)
    else parseItems (c2 :: r2).length (c2 :: r2)

/-- Model of json.load on the persistence file: parses one JSON array of
strings, allowing surrounding whitespace, and requires the input to be
exhausted; none models the exception the library raises otherwise. -/
def jsonLoadList (input : List Char) : Option (List (List Char)) :=
  match skipWs input with
  | [] => none
  | c :: r =>
    if c = '[' then
      (jsonLoadArr (skipWs r)).bind (fun st =>
        if (skipWs st.2).isEmpty then some st.1 else none)
    else none

/-- What TaskWindow.save_state writes for a given task list. -/
def dumpTasks (tl : List String) : List Char :=
  jsonDumpList (tl.map String.data)

/-- What the startup code reads back from the persistence file. -/
def loadTasks (input : List Char) : Option (List String) :=
  (jsonLoadList input).map (List.map String.mk)

/-! ## Text wrapping

Model of the library call textwrap.fill(message, width) used by
ChatCanvas.send_message, with default options: whitespace is collapsed,
words are placed greedily on lines of at most `width` columns separated by
single spaces, and a word longer than the width is broken into width-sized
pieces (the hyphen-aware chunk splitting of the Python implementation is
not modelled).  Lines are joined with a newline. -/

/-- The whitespace characters textwrap collapses (space, tab, newline,
vertical tab, form feed, carriage return). -/
def isPySpace (c : Char) : Bool :=
  c = ' ' || c = Char.ofNat 9 || c = Char.ofNat 10 || c = Char.ofNat 11 ||
    c = Char.ofNat 12 || c = Char.ofNat 13

/-- Split on whitespace, dropping empty words; the accumulator holds the
current word reversed. -/
def splitWords : List Char → List Char → List (List Char)
  | [], cur => if cur.isEmpty then [] else [cur.reverse]
  | c :: rest, cur =>
    if isPySpace c then
      if cur.isEmpty then splitWords rest [] else cur.reverse :: splitWords rest []
    else splitWords rest (c :: cur)

/-- Cut a list into pieces of `width` characters (the fuel is an upper
bound on the number of pieces; the callers pass the length). -/
def chunkPieces (width : Nat) : Nat → List Char → List (List Char)
  | _, [] => []
  | 0, l => [l]
  | fuel + 1, c :: rest =>
    (c :: rest.take (width - 1)) :: chunkPieces width fuel (rest.drop (width - 1))

/-- Break every word longer than the width into width-sized pieces. -/
def breakLong (width : Nat) : List (List Char) → List (List Char)
  | [] => []
  | w :: ws =>
    (if w.length ≤ width then [w] else chunkPieces width w.length w) ++
      breakLong width ws

/-- Greedy line filling: add the next word to the current line when it fits
after a separating space, otherwise start a new line. -/
def fillGreedy (width : Nat) : List (List Char) → List Char → List (List Char)
  | [], cur => if cur.isEmpty then [] else [cur]
  | w :: ws, cur =>
    if cur.isEmpty then fillGreedy width ws w
    else if cur.length + 1 + w.length ≤ width then
      fillGreedy width ws (cur ++ (' ' :: w))
    else cur :: fillGreedy width ws w

/-- Join wrapped lines with newlines. -/
def joinLines : List (List Char) → List Char
  | [] => []
  | [l] => l
  | l :: ls => l ++ (Char.ofNat 10 :: joinLines ls)

/-- Model of textwrap.fill(text, width). -/
def textwrap_fill (text : String) (width : Nat) : String :=
  String.mk (joinLines (fillGreedy width (breakLong width (splitWords text.data [])) []))

/-! ## ChatBubble and ChatCanvas

From classes ChatBubble and ChatCanvas of MainApp.py.  A canvas item is
only moved while it exists on the canvas; after `delete('all')` the stale
item handles kept in the bubbles list are dead and moving them is a no-op,
which the `rendered` flag models.  The horizontal anchor never changes
(every move in the source has dx = 0), so it is derived from the side flag;
the vertical positions record the anchor of the bubble window and the
accumulated translation of the stem polygon.  The height h = y2 - y1 of a
freshly rendered bubble bounding box is produced by the toolkit and is
passed in as a parameter. -/

def BUBBLE_PAD_Y : Int := 500
def L_BUBBLE_PAD_X : Int := 90
def R_BUBBLE_PAD_X : Int := 350

/-- The stem polygon of a bubble, from ChatBubble.draw_triangle: the three
corner points computed from the bounding box (x1, y1, x2, y2) of the bubble
window and the side flag. -/
def draw_triangle (left : Bool) (x1 y1 x2 y2 : Int) : List (Int × Int) :=
  if left then [(x1, y2 - 10), (x1 - 15, y2 + 10), (x1, y2)]
  else [(x2, y2 - 10), (x2 + 15, y2 + 10), (x2, y2)]

/-- One chat bubble as held in ChatCanvas.bubbles: its displayed text, the
side flag, the measured height of its bounding box, the current vertical
anchor of its window item, the accumulated vertical translation of its stem
polygon, and whether its canvas items still exist. -/
structure RBubble where
  text : String
  left : Bool
  height : Int
  yBody : Int
  yStem : Int
  rendered : Bool
deriving DecidableEq

/-- Horizontal anchor of a bubble window, from ChatBubble: left bubbles at
L_BUBBLE_PAD_X, right bubbles at R_BUBBLE_PAD_X; never moved afterwards. -/
def RBubble.xAnchor (b : RBubble) : Int :=
  if b.left then L_BUBBLE_PAD_X else R_BUBBLE_PAD_X

/-- A freshly constructed ChatBubble: window created at the fixed vertical
anchor BUBBLE_PAD_Y, stem not yet translated. -/
def ChatBubble_new (text : String) (left : Bool) (h : Int) : RBubble :=
  { text := text, left := left, height := h, yBody := BUBBLE_PAD_Y, yStem := 0,
    rendered := true }

/-- The bubble constructed inside send_message, before the canvas
repositions it: the raw message wrapped at 20 columns. -/
def freshBubbleOf (message : String) (left : Bool) (h : Int) : RBubble :=
  ChatBubble_new (textwrap_fill message 20) left h

/-- canvas.move(item, 0, dy): translates the body and stem of a bubble when
its items are alive, and is a no-op on dead item handles. -/
def moveBubble (dy : Int) (b : RBubble) : RBubble :=
  if b.rendered then { b with yBody := b.yBody + dy, yStem := b.yStem + dy } else b

/-- State of a ChatCanvas: the ordered bubbles list and whether an exit
button item is on the canvas. -/
structure ChatCanvasS where
  bubbles : List RBubble
  exitShown : Bool
deriving DecidableEq

/-- ChatCanvas.send_message: wrap the message, construct a ChatBubble at
the fixed anchor, measure its box (h = y2 - y1), move every bubble of the
bubbles list by 2*(y1 - y2), move the new bubble by (y1 - y2), and append
it.  (update_scrollregion only changes the scroll view and is not part of
the state modelled.) -/
def send_message (c : ChatCanvasS) (message : String) (left : Bool) (h : Int) :
    ChatCanvasS :=
  let temp := freshBubbleOf message left h
  { c with bubbles :=
      c.bubbles.map (moveBubble (2 * (0 - h))) ++ [moveBubble (0 - h) temp] }

/-- ChatCanvas.exit_btn: places the exit button window on the canvas. -/
def exit_btn (c : ChatCanvasS) : ChatCanvasS :=
  { c with exitShown := true }

/-- canvas.delete('all'): every canvas item is destroyed, so no bubble is
rendered any more and the exit button is gone; the bubbles list itself is
untouched. -/
def canvas_delete_all (c : ChatCanvasS) : ChatCanvasS :=
  { bubbles := c.bubbles.map (fun b => { b with rendered := false }),
    exitShown := false }

/-! ## MainApplication, TaskWindow and the entry point

From classes MainApplication and TaskWindow and the module entry point of
MainApp.py.  The observable state collects the task list, the entry widget
(its text, whether it is enabled, and whether Return is bound), the
visibility of the main window, the chat canvas, the checklist window when
one exists, and the contents of the persistence file rec/data.json when it
exists. -/

/-- State of a TaskWindow. -/
structure TaskWindowS where
  task_list : List String
  destroyed : Bool
deriving DecidableEq

/-- Observable state of the application and its environment. -/
structure AppSys where
  tasks : List String
  entryText : String
  entryEnabled : Bool
  entryBound : Bool
  mainShown : Bool
  cnv_chat : ChatCanvasS
  taskWindow : Option TaskWindowS
  dataFile : Option (List Char)
deriving DecidableEq

/-- The workflow state of section 4.4 of the specification, read off the
observable state: COMPLETE once the checklist window has been handed the
task list, CAPTURING_TASKS while the entry accepts input, AWAITING_INPUT
before the greeting enables it. -/
inductive WorkflowState
  | awaitingInput
  | capturingTasks
  | complete
deriving DecidableEq

def workflowState (s : AppSys) : WorkflowState :=
  if s.taskWindow.isSome then .complete
  else if s.entryEnabled then .capturingTasks
  else .awaitingInput

/-- TaskWindow.__init__ followed by its save_state call: the checklist
window exists with the given task list and the persistence file now holds
its JSON dump. -/
def TaskWindow_new (tl : List String) (s : AppSys) : AppSys :=
  { s with taskWindow := some { task_list := tl, destroyed := false },
           dataFile := some (dumpTasks tl) }

/-- MainApplication.refresh_cnv: self.cnv_chat.delete('all'). -/
def refresh_cnv (s : AppSys) : AppSys :=
  { s with cnv_chat := canvas_delete_all s.cnv_chat }

/-- MainApplication.create_list: construct the TaskWindow on the collected
tasks, clear the canvas, withdraw the main window. -/
def create_list (s : AppSys) : AppSys :=
  let s1 := TaskWindow_new s.tasks s
  let s2 := refresh_cnv s1
  { s2 with mainShown := false }

/-- MainApplication.input_tasks: an empty entry hands off to the checklist
(create_list, then unbind Return and disable the entry); a non-empty entry
is echoed as a right-side bubble, appended to the tasks, and cleared from
the entry.  The parameter h is the measured height of the echoed bubble. -/
def input_tasks (h : Int) (s : AppSys) : AppSys :=
  if s.entryText.length = 0 then
    let s1 := create_list s
    { s1 with entryBound := false, entryEnabled := false }
  else
    let s1 := { s with cnv_chat := send_message s.cnv_chat s.entryText false h }
    let s2 := { s1 with tasks := s1.tasks ++ [s1.entryText] }
    { s2 with entryText := "" }

/-- One line submitted through the entry widget: the Return event only
fires while the binding exists, and text can only have been typed while the
entry was enabled. -/
def submitLine (line : String) (h : Int) (s : AppSys) : AppSys :=
  if s.entryBound = true ∧ s.entryEnabled = true then
    input_tasks h { s with entryText := line }
  else s

/-- A sequence of submitted lines, each with the measured height of its
echo bubble. -/
def submitAll (lines : List (String × Int)) (s : AppSys) : AppSys :=
  lines.foldl (fun st p => submitLine p.1 p.2 st) s

/-- MainApplication.end_day: show the main window again, disable the
entry, send the two farewell bubbles on the left side, and place the exit
button. -/
def end_day (h1 h2 : Int) (s : AppSys) : AppSys :=
  let c1 := send_message s.cnv_chat "Another day, another dollar" true h1
  let c2 := send_message c1 "Alright, I\x27ll see ya tomorrow" true h2
  { s with mainShown := true, entryEnabled := false, cnv_chat := exit_btn c2 }

/-- TaskWindow.end_tasks on the path where a live parent application
exists: call end_day on it, then destroy the checklist window (the Destroy
binding having been removed, the root survives). -/
def end_tasks (h1 h2 : Int) (s : AppSys) : AppSys :=
  let s1 := end_day h1 h2 s
  { s1 with taskWindow := s1.taskWindow.map (fun w => { w with destroyed := true }) }

/-- MainApplication.exit: remove rec/data.json when it exists and quit. -/
def app_exit (s : AppSys) : AppSys :=
  { s with dataFile := none }

/-- MainApplication.__init__: empty task list, entry disabled but with
Return bound, empty canvas, main window shown. -/
def MainApplication_init (file : Option (List Char)) : AppSys :=
  { tasks := [], entryText := "", entryEnabled := false, entryBound := true,
    mainShown := true, cnv_chat := { bubbles := [], exitShown := false },
    taskWindow := none, dataFile := file }

/-- MainApplication.gather_info: send the two greeting bubbles on the left
side and enable the entry. -/
def gather_info (hg1 hg2 : Int) (s : AppSys) : AppSys :=
  let c1 := send_message s.cnv_chat "Welcome back!" true hg1
  let greet2 :=
    "Please enter today\x27s tasks, one at a time, entering in nothing when finished."
  let c2 := send_message c1 greet2 true hg2
  { s with cnv_chat := c2, entryEnabled := true }

/-- A fresh chat capture session: MainApplication constructed on a missing
persistence file, then gather_info. -/
def freshSession (hg1 hg2 : Int) : AppSys :=
  gather_info hg1 hg2 (MainApplication_init none)

/-- Outcome of the module entry point. -/
structure LaunchS where
  rootShown : Bool
  chatStarted : Bool
  checklist : Option (List String)
  dataFileAfter : Option (List Char)
deriving DecidableEq

/-- The module entry point: when rec/data.json exists its contents are
loaded (none models the exception on malformed contents), the root window
is withdrawn and a TaskWindow is opened on the loaded list (its constructor
re-saves the file); otherwise a MainApplication is created and gather_info
runs. -/
def startup (file : Option (List Char)) : Option LaunchS :=
  match file with
  | some contents =>
    match loadTasks contents with
    | none => none
    | some tl =>
      some { rootShown := false, chatStarted := false, checklist := some tl,
             dataFileAfter := some (dumpTasks tl) }
  | none =>
    some { rootShown := true, chatStarted := true, checklist := none,
           dataFileAfter := none }

/-! ## Round trip of the JSON persistence -/

theorem hexVal_hexDigit (n : Nat) (h : n < 16) : hexVal (hexDigit n) = some n := by
  interval_cases n <;> decide

theorem hex4_toHex4 (n : Nat) (h : n < 65536) :
    hex4 (hexDigit (n / 4096 % 16)) (hexDigit (n / 256 % 16))
      (hexDigit (n / 16 % 16)) (hexDigit (n % 16)) = some n := by
  have h1 := hexVal_hexDigit (n / 4096 % 16) (by omega)
  have h2 := hexVal_hexDigit (n / 256 % 16) (by omega)
  have h3 := hexVal_hexDigit (n / 16 % 16) (by omega)
  have h4 := hexVal_hexDigit (n % 16) (by omega)
  simp only [hex4, h1, h2, h3, h4]
  congr 1
  omega

theorem char_toNat_valid (c : Char) :
    c.toNat < 55296 ∨ (57343 < c.toNat ∧ c.toNat < 1114112) := c.valid

theorem parseHex4_toHex4 (n : Nat) (h : n < 65536) (r : List Char) :
    parseHex4 (toHex4 n ++ r) = some (n, r) := by
  simp only [toHex4, List.cons_append, List.nil_append, parseHex4,
    hex4_toHex4 n h, Option.map_some']

theorem parseUEscape_single (n : Nat) (hB : n < 65536) (hv : n < 55296 ∨ 57344 ≤ n)
    (r : List Char) : parseUEscape (toHex4 n ++ r) = some (Char.ofNat n, r) := by
  simp [parseUEscape, parseHex4_toHex4 n hB, hv]

theorem parseLowSurrogate_cons (e2 u2 : Char) (r : List Char) :
    parseLowSurrogate (e2 :: (u2 :: r)) =
      if e2 = '\\' ∧ u2 = 'u' then
        (parseHex4 r).bind (fun mr =>
          if 56320 ≤ mr.1 ∧ mr.1 < 57344 then some mr else none)
      else none := rfl

theorem parseUEscape_pair (n : Nat) (hge : 65536 ≤ n) (hlt : n < 1114112)
    (r : List Char) :
    parseUEscape (toHex4 (55296 + (n - 65536) / 1024) ++
      ('\\' :: ('u' :: (toHex4 (56320 + (n - 65536) % 1024) ++ r)))) =
      some (Char.ofNat n, r) := by
  have hd : (n - 65536) / 1024 < 1024 := by omega
  have h1 : 55296 + (n - 65536) / 1024 < 65536 := by omega
  have h2 : 56320 + (n - 65536) % 1024 < 65536 := by omega
  have h3 : ¬ (55296 + (n - 65536) / 1024 < 55296 ∨
      57344 ≤ 55296 + (n - 65536) / 1024) := by omega
  have h4 : 55296 + (n - 65536) / 1024 < 56320 := by omega
  have h5 : 56320 ≤ 56320 + (n - 65536) % 1024 ∧
      56320 + (n - 65536) % 1024 < 57344 := by omega
  rw [parseUEscape, parseHex4_toHex4 _ h1, Option.some_bind]
  rw [if_neg h3, if_pos h4]
  rw [parseLowSurrogate_cons, if_pos ⟨rfl, rfl⟩]
  rw [parseHex4_toHex4 _ h2, Option.some_bind]
  rw [if_pos h5]
  simp only [Option.map_some']
  have harith : 65536 + (55296 + (n - 65536) / 1024 - 55296) * 1024 +
      (56320 + (n - 65536) % 1024 - 56320) = n := by omega
  rw [harith]

theorem parseEscapeChar_cons (e : Char) (r : List Char) :
    parseEscapeChar (e :: r) =
      if e = '"' then some ('"', r)
      else if e = '\\' then some ('\\', r)
      else if e = '/' then some ('/', r)
      else if e = 'b' then some (Char.ofNat 8, r)
      else if e = 'f' then some (Char.ofNat 12, r)
      else if e = 'n' then some (Char.ofNat 10, r)
      else if e = 'r' then some (Char.ofNat 13, r)
      else if e = 't' then some (Char.ofNat 9, r)
      else if e = 'u' then parseUEscape r
      else none := rfl

theorem escapeChar_spec (c : Char) :
    (escapeChar c = [c] ∧ c ≠ '"' ∧ c ≠ '\\') ∨
    ∃ es, escapeChar c = '\\' :: es ∧
      ∀ tail, parseEscapeChar (es ++ tail) = some (c, tail) := by
  by_cases h1 : c = '"'
  · subst h1
    exact Or.inr ⟨['"'], rfl, fun tail => by
      rw [List.singleton_append, parseEscapeChar_cons, if_pos rfl]⟩
  by_cases h2 : c = '\\'
  · subst h2
    exact Or.inr ⟨['\\'], rfl, fun tail => by
      rw [List.singleton_append, parseEscapeChar_cons, if_neg (by decide),
        if_pos rfl]⟩
  by_cases h3 : c = Char.ofNat 8
  · subst h3
    exact Or.inr ⟨['b'], rfl, fun tail => by
      rw [List.singleton_append, parseEscapeChar_cons, if_neg (by decide),
        if_neg (by decide), if_neg (by decide), if_pos rfl]⟩
  by_cases h4 : c = Char.ofNat 9
  · subst h4
    exact Or.inr ⟨['t'], rfl, fun tail => by
      rw [List.singleton_append, parseEscapeChar_cons, if_neg (by decide),
        if_neg (by decide), if_neg (by decide), if_neg (by decide),
        if_neg (by decide), if_neg (by decide), if_neg (by decide),
        if_pos rfl]⟩
  by_cases h5 : c = Char.ofNat 10
  · subst h5
    exact Or.inr ⟨['n'], rfl, fun tail => by
      rw [List.singleton_append, parseEscapeChar_cons, if_neg (by decide),
        if_neg (by decide), if_neg (by decide), if_neg (by decide),
        if_neg (by decide), if_pos rfl]⟩
  by_cases h6 : c = Char.ofNat 12
  · subst h6
    exact Or.inr ⟨['f'], rfl, fun tail => by
      rw [List.singleton_append, parseEscapeChar_cons, if_neg (by decide),
        if_neg (by decide), if_neg (by decide), if_neg (by decide),
        if_pos rfl]⟩
  by_cases h7 : c = Char.ofNat 13
  · subst h7
    exact Or.inr ⟨['r'], rfl, fun tail => by
      rw [List.singleton_append, parseEscapeChar_cons, if_neg (by decide),
        if_neg (by decide), if_neg (by decide), if_neg (by decide),
        if_neg (by decide), if_neg (by decide), if_pos rfl]⟩
  by_cases h8 : 32 ≤ c.toNat ∧ c.toNat ≤ 126
  · refine Or.inl ⟨?_, h1, h2⟩
    unfold escapeChar
    rw [if_neg h1, if_neg h2, if_neg h3, if_neg h4, if_neg h5, if_neg h6,
      if_neg h7, if_pos h8]
  by_cases h9 : c.toNat < 65536
  · refine Or.inr ⟨'u' :: toHex4 c.toNat, ?_, fun tail => ?_⟩
    · unfold escapeChar
      rw [if_neg h1, if_neg h2, if_neg h3, if_neg h4, if_neg h5, if_neg h6,
        if_neg h7, if_neg h8, if_pos h9]
    · rw [List.cons_append, parseEscapeChar_cons, if_neg (by decide),
        if_neg (by decide), if_neg (by decide), if_neg (by decide),
        if_neg (by decide), if_neg (by decide), if_neg (by decide),
        if_neg (by decide), if_pos rfl]
      have hv : c.toNat < 55296 ∨ 57344 ≤ c.toNat := by
        have := char_toNat_valid c; omega
      rw [parseUEscape_single c.toNat h9 hv tail, Char.ofNat_toNat]
  · refine Or.inr ⟨'u' :: (toHex4 (55296 + (c.toNat - 65536) / 1024) ++
      ('\\' :: ('u' :: toHex4 (56320 + (c.toNat - 65536) % 1024)))), ?_, fun tail => ?_⟩
    · unfold escapeChar
      rw [if_neg h1, if_neg h2, if_neg h3, if_neg h4, if_neg h5, if_neg h6,
        if_neg h7, if_neg h8, if_neg h9]
      simp [List.cons_append, List.append_assoc]
    · rw [List.cons_append, parseEscapeChar_cons, if_neg (by decide),
        if_neg (by decide), if_neg (by decide), if_neg (by decide),
        if_neg (by decide), if_neg (by decide), if_neg (by decide),
        if_neg (by decide), if_pos rfl]
      have hlt : c.toNat < 1114112 := by have := char_toNat_valid c; omega
      rw [List.append_assoc, List.cons_append, List.cons_append]
      rw [parseUEscape_pair c.toNat (by omega) hlt tail, Char.ofNat_toNat]

theorem parseStringBody_succ (fuel : Nat) (c : Char) (rest : List Char) :
    parseStringBody (fuel + 1) (c :: rest) =
      if c = '"' then some ([], rest)
      else if c = '\\' then
        (parseEscapeChar rest).bind (fun dr =>
          (parseStringBody fuel dr.2).map (fun p => (dr.1 :: p.1, p.2)))
      else
        (parseStringBody fuel rest).map (fun p => (c :: p.1, p.2)) := rfl

theorem parseStringBody_escapeList (s : List Char) : ∀ (fuel : Nat) (rest : List Char),
    s.length < fuel →
    parseStringBody fuel (escapeList s ++ ('"' :: rest)) = some (s, rest) := by
  induction s with
  | nil =>
    intro fuel rest h
    obtain ⟨k, rfl⟩ : ∃ k, fuel = k + 1 := ⟨fuel - 1, by omega⟩
    rw [show escapeList [] ++ ('"' :: rest) = '"' :: rest from rfl]
    rw [parseStringBody_succ, if_pos rfl]
  | cons c cs ih =>
    intro fuel rest h
    obtain ⟨k, rfl⟩ : ∃ k, fuel = k + 1 := ⟨fuel - 1, by omega⟩
    have ihk := ih k rest (by simp at h ⊢; omega)
    rcases escapeChar_spec c with ⟨hlit, hq, hb⟩ | ⟨es, hes, hparse⟩
    · rw [show escapeList (c :: cs) = escapeChar c ++ escapeList cs from rfl,
        hlit, List.singleton_append, List.cons_append]
      rw [parseStringBody_succ, if_neg hq, if_neg hb, ihk, Option.map_some']
    · rw [show escapeList (c :: cs) = escapeChar c ++ escapeList cs from rfl,
        hes]
      simp only [List.cons_append, List.append_assoc]
      rw [parseStringBody_succ, if_neg (by decide), if_pos rfl]
      rw [hparse (escapeList cs ++ ('"' :: rest)), Option.some_bind]
      rw [ihk]
      rfl

theorem escapeChar_length_pos (c : Char) : 1 ≤ (escapeChar c).length := by
  unfold escapeChar
  split_ifs <;> simp [toHex4]

theorem length_le_escapeList (s : List Char) : s.length ≤ (escapeList s).length := by
  induction s with
  | nil => simp [escapeList]
  | cons c cs ih =>
    have := escapeChar_length_pos c
    rw [show escapeList (c :: cs) = escapeChar c ++ escapeList cs from rfl]
    simp only [List.length_append, List.length_cons]
    omega

theorem parseJsonString_cons (c : Char) (r : List Char) :
    parseJsonString (c :: r) = if c = '"' then parseStringBody r.length r else none := rfl

theorem parseJsonString_serializeString (s rest : List Char) :
    parseJsonString (serializeString s ++ rest) = some (s, rest) := by
  have hlen : s.length < (escapeList s ++ ('"' :: rest)).length := by
    have := length_le_escapeList s
    simp only [List.length_append, List.length_cons]
    omega
  rw [show serializeString s ++ rest = '"' :: (escapeList s ++ ('"' :: rest)) from by
    simp [serializeString, List.cons_append, List.append_assoc]]
  rw [parseJsonString_cons, if_pos rfl]
  exact parseStringBody_escapeList s _ rest hlen

theorem parseItems_succ (fuel : Nat) (l : List Char) :
    parseItems (fuel + 1) l =
      (parseJsonString l).bind (fun sr =>
        match skipWs sr.2 with
        | [] => none
        | c :: r2 =>
          if c = ',' then
            (parseItems fuel (skipWs r2)).map (fun st => (sr.1 :: st.1, st.2))
          else if c = ']' then some ([sr.1], r2)
          else none) := rfl

theorem skipWs_not_ws (c : Char) (r : List Char) (h : isJsonWs c = false) :
    skipWs (c :: r) = c :: r := by
  rw [show skipWs (c :: r) = if isJsonWs c then skipWs r else c :: r from rfl, h]
  simp

theorem skipWs_space (r : List Char) : skipWs (' ' :: r) = skipWs r := rfl

theorem sepJoin_cons (t : List Char) (ts : List (List Char)) :
    sepJoin (t :: ts) =
      serializeString t ++ (if ts.isEmpty then [] else ',' :: (' ' :: sepJoin ts)) := by
  cases ts
  · simp [sepJoin]
  · simp [sepJoin]

theorem skipWs_sepJoin_append (t : List Char) (ts : List (List Char)) (X : List Char) :
    skipWs (sepJoin (t :: ts) ++ X) = sepJoin (t :: ts) ++ X := by
  rw [sepJoin_cons]
  simp only [serializeString, List.cons_append, List.append_assoc]
  exact skipWs_not_ws _ _ (by decide)

theorem parseItems_sepJoin (l : List (List Char)) : ∀ (fuel : Nat) (rest : List Char),
    l ≠ [] → l.length < fuel →
    parseItems fuel (sepJoin l ++ (']' :: rest)) = some (l, rest) := by
  induction l with
  | nil => intro _ _ h; exact absurd rfl h
  | cons t ts ih =>
    intro fuel rest _ hf
    obtain ⟨k, rfl⟩ : ∃ k, fuel = k + 1 := ⟨fuel - 1, by omega⟩
    rw [parseItems_succ]
    cases ts with
    | nil =>
      rw [show sepJoin [t] = serializeString t from rfl]
      rw [parseJsonString_serializeString, Option.some_bind]
      rw [show ((t, ']' :: rest) : List Char × List Char).2 = ']' :: rest from rfl]
      rw [skipWs_not_ws _ _ (by decide)]
      simp
    | cons t2 ts2 =>
      rw [show sepJoin (t :: (t2 :: ts2)) =
        serializeString t ++ (',' :: (' ' :: sepJoin (t2 :: ts2))) from rfl]
      simp only [List.append_assoc, List.cons_append]
      rw [parseJsonString_serializeString, Option.some_bind]
      rw [show ((t, ',' :: (' ' :: (sepJoin (t2 :: ts2) ++ (']' :: rest)))) :
        List Char × List Char).2 =
        ',' :: (' ' :: (sepJoin (t2 :: ts2) ++ (']' :: rest))) from rfl]
      rw [skipWs_not_ws _ _ (by decide)]
      have hstep : skipWs (' ' :: (sepJoin (t2 :: ts2) ++ (']' :: rest))) =
          sepJoin (t2 :: ts2) ++ (']' :: rest) := by
        rw [skipWs_space, skipWs_sepJoin_append]
      simp only [show ∀ (r2 : List Char) (f : List Char × List Char → Option (List (List Char) × List Char)),
        (match ',' :: r2 with
          | [] => none
          | c :: r2 =>
            if c = ',' then
              Option.map (fun st => (t :: st.1, st.2)) (parseItems k (skipWs r2))
            else if c = ']' then some ([t], r2) else none) =
          Option.map (fun st => (t :: st.1, st.2)) (parseItems k (skipWs r2)) from
        fun r2 f => rfl]
      rw [hstep, ih k rest (by simp) (by simp at hf ⊢; omega), Option.map_some']
      simp

theorem length_le_sepJoin (l : List (List Char)) : l.length ≤ (sepJoin l).length := by
  induction l with
  | nil => simp [sepJoin]
  | cons t ts ih =>
    have h2 : 2 ≤ (serializeString t).length := by
      simp [serializeString]
    cases ts with
    | nil =>
      rw [show sepJoin [t] = serializeString t from rfl]
      simp only [List.length_cons, List.length_nil]
      omega
    | cons t2 ts2 =>
      rw [show sepJoin (t :: (t2 :: ts2)) =
        serializeString t ++ (',' :: (' ' :: sepJoin (t2 :: ts2))) from rfl]
      simp only [List.length_append, List.length_cons] at ih ⊢
      omega

theorem jsonLoadArr_cons (c2 : Char) (r2 : List Char) :
    jsonLoadArr (c2 :: r2) =
      if c2 = ']' then some ([], r2)
      else parseItems (c2 :: r2).length (c2 :: r2) := rfl

theorem jsonLoadArr_items (t : List Char) (ts : List (List Char)) (rest : List Char) :
    jsonLoadArr (sepJoin (t :: ts) ++ (']' :: rest)) = some (t :: ts, rest) := by
  have hZ : sepJoin (t :: ts) ++ (']' :: rest) =
      '"' :: ((escapeList t ++ ['"']) ++
        ((if ts.isEmpty then [] else ',' :: (' ' :: sepJoin ts)) ++ (']' :: rest))) := by
    rw [sepJoin_cons]
    simp [serializeString, List.append_assoc]
  rw [hZ, jsonLoadArr_cons, if_neg (by decide), ← hZ]
  apply parseItems_sepJoin
  · simp
  · have := length_le_sepJoin (t :: ts)
    simp only [List.length_append, List.length_cons] at this ⊢
    omega

theorem jsonLoadList_dumpList (l : List (List Char)) :
    jsonLoadList (jsonDumpList l) = some l := by
  cases l with
  | nil => rfl
  | cons t ts =>
    rw [show jsonDumpList (t :: ts) = '[' :: (sepJoin (t :: ts) ++ (']' :: [])) from rfl]
    rw [show jsonLoadList ('[' :: (sepJoin (t :: ts) ++ (']' :: []))) =
      (match skipWs ('[' :: (sepJoin (t :: ts) ++ (']' :: []))) with
        | [] => none
        | c :: r =>
          if c = '[' then
            (jsonLoadArr (skipWs r)).bind (fun st =>
              if (skipWs st.2).isEmpty then some st.1 else none)
          else none) from rfl]
    rw [skipWs_not_ws _ _ (by decide)]
    simp only [if_pos (show ('[' : Char) = '[' from rfl)]
    rw [skipWs_sepJoin_append, jsonLoadArr_items, Option.some_bind]
    rw [show skipWs ([] : List Char) = [] from rfl]
    simp

theorem loadTasks_dumpTasks (tl : List String) : loadTasks (dumpTasks tl) = some tl := by
  unfold loadTasks dumpTasks
  rw [jsonLoadList_dumpList]
  simp only [Option.map_some', List.map_map]
  have h : (String.mk ∘ String.data) = id := funext fun s => rfl
  rw [h, List.map_id]

/-! ## Helper lemmas on the workflow -/

theorem string_length_zero_iff (s : String) : s.length = 0 ↔ s = "" := by
  cases s with
  | mk data =>
    cases data with
    | nil => simp [String.length]
    | cons c cs =>
      simp only [String.length, List.length_cons]
      constructor
      · intro h; omega
      · intro h
        have : (String.mk (c :: cs)).data = ("" : String).data := by rw [h]
        simp at this

theorem submitLine_nonempty (s : AppSys) (line : String) (hb : Int)
    (hbnd : s.entryBound = true) (hen : s.entryEnabled = true) (hne : line ≠ "") :
    submitLine line hb s =
      { s with entryText := "",
               cnv_chat := send_message s.cnv_chat line false hb,
               tasks := s.tasks ++ [line] } := by
  have hlen : ¬ (line.length = 0) := fun h => hne ((string_length_zero_iff line).mp h)
  unfold submitLine input_tasks
  rw [if_pos ⟨hbnd, hen⟩]
  simp only [if_neg hlen]

theorem submitLine_empty (s : AppSys) (hb : Int)
    (hbnd : s.entryBound = true) (hen : s.entryEnabled = true) :
    submitLine "" hb s =
      { s with entryText := "",
               entryBound := false, entryEnabled := false,
               taskWindow := some { task_list := s.tasks, destroyed := false },
               dataFile := some (dumpTasks s.tasks),
               cnv_chat := canvas_delete_all s.cnv_chat,
               mainShown := false } := by
  unfold submitLine input_tasks create_list TaskWindow_new refresh_cnv
  rw [if_pos ⟨hbnd, hen⟩]
  simp only [if_pos (show ("" : String).length = 0 from rfl)]

theorem submitLine_disabled (s : AppSys) (line : String) (hb : Int)
    (h : ¬ (s.entryBound = true ∧ s.entryEnabled = true)) :
    submitLine line hb s = s := by
  unfold submitLine
  rw [if_neg h]

/-- C2: for every bounding box (x1, y1, x2, y2), the stem polygon of a LEFT
bubble is exactly [(x1, y2-10), (x1-15, y2+10), (x1, y2)] and of a RIGHT
bubble exactly [(x2, y2-10), (x2+15, y2+10), (x2, y2)], with no special
case for a zero height box. -/
theorem C2_draw_triangle_points (x1 y1 x2 y2 : Int) :
    draw_triangle true x1 y1 x2 y2 = [(x1, y2 - 10), (x1 - 15, y2 + 10), (x1, y2)] ∧
    draw_triangle false x1 y1 x2 y2 = [(x2, y2 - 10), (x2 + 15, y2 + 10), (x2, y2)] :=
  ⟨rfl, rfl⟩

/-- C5: the task list written to the persistence file by the TaskWindow
constructor reads back, through the persisted JSON record, as the same
list element for element and in the same order. -/
theorem C5_round_trip (tl : List String) (s : AppSys) :
    (TaskWindow_new tl s).dataFile = some (dumpTasks tl) ∧
    loadTasks (dumpTasks tl) = some tl :=
  ⟨rfl, loadTasks_dumpTasks tl⟩

/-- C9: a freshly constructed chat bubble carries the message wrapped at 20
columns, sits at horizontal anchor 90 (LEFT) or 350 (RIGHT), and at
vertical anchor 500 before the canvas repositions it; send_message appends
exactly this bubble, repositioned. -/
theorem C9_fresh_bubble_geometry (message : String) (left : Bool) (h : Int) :
    (freshBubbleOf message left h).text = textwrap_fill message 20 ∧
    (freshBubbleOf message left h).yBody = 500 ∧
    (freshBubbleOf message left h).xAnchor = (if left then 90 else 350) ∧
    ∀ c : ChatCanvasS, (send_message c message left h).bubbles.getLast? =
      some (moveBubble (0 - h) (freshBubbleOf message left h)) := by
  refine ⟨rfl, rfl, ?_, ?_⟩
  · unfold RBubble.xAnchor freshBubbleOf ChatBubble_new L_BUBBLE_PAD_X R_BUBBLE_PAD_X
    cases left <;> simp
  · intro c
    unfold send_message
    simp [List.getLast?_concat]

/-- C8 counterexample: after one send, clearing the canvas does not reset
the ordered bubble collection to the empty list. -/
theorem C8_counterexample :
    ¬ ((canvas_delete_all (send_message { bubbles := [], exitShown := false }
        "hi" true 20)).bubbles = []) := by
  decide

/-- C8 amended: the clear performed on the transition to the checklist view
destroys every rendered bubble item, but the ordered bubble collection is
left holding the same records (now unrendered) rather than being reset to
the empty list. -/
theorem C8_clear_amended (s : AppSys) :
    (create_list s).cnv_chat = canvas_delete_all s.cnv_chat ∧
    (∀ b ∈ (create_list s).cnv_chat.bubbles, b.rendered = false) ∧
    (create_list s).cnv_chat.bubbles =
      s.cnv_chat.bubbles.map (fun b => { b with rendered := false }) ∧
    (create_list s).cnv_chat.bubbles.length = s.cnv_chat.bubbles.length := by
  refine ⟨rfl, ?_, rfl, by simp [create_list, refresh_cnv, TaskWindow_new, canvas_delete_all]⟩
  intro b hb
  simp [create_list, refresh_cnv, TaskWindow_new, canvas_delete_all] at hb
  obtain ⟨a, _, rfl⟩ := hb
  rfl

/-- C1: each send constructs the new bubble at the fixed baseline, moves
every previously existing (rendered) bubble body and stem up by twice the
new height, moves the new bubble up by its own height so its anchor is the
baseline minus its height, and appends it, preserving the order and the
renderedness of the collection. -/
theorem C1_send_message_layout (c : ChatCanvasS)
    (hr : ∀ b ∈ c.bubbles, b.rendered = true)
    (message : String) (left : Bool) (h : Int) :
    (send_message c message left h).bubbles =
      c.bubbles.map
        (fun b => { b with yBody := b.yBody - 2 * h, yStem := b.yStem - 2 * h }) ++
        [⟨textwrap_fill message 20, left, h, BUBBLE_PAD_Y - h, 0 - h, true⟩] ∧
    (∀ b ∈ (send_message c message left h).bubbles, b.rendered = true) := by
  have hmap : c.bubbles.map (moveBubble (2 * (0 - h))) =
      c.bubbles.map
        (fun b => { b with yBody := b.yBody - 2 * h, yStem := b.yStem - 2 * h }) := by
    apply List.map_congr_left
    intro b hb
    have hb' := hr b hb
    unfold moveBubble
    rw [if_pos hb']
    have e1 : b.yBody + 2 * (0 - h) = b.yBody - 2 * h := by ring
    have e2 : b.yStem + 2 * (0 - h) = b.yStem - 2 * h := by ring
    rw [e1, e2]
  have hnew : moveBubble (0 - h) (freshBubbleOf message left h) =
      ⟨textwrap_fill message 20, left, h, BUBBLE_PAD_Y - h, 0 - h, true⟩ := by
    unfold moveBubble freshBubbleOf ChatBubble_new
    have e1 : BUBBLE_PAD_Y + (0 - h) = BUBBLE_PAD_Y - h := by ring
    have e2 : (0 : Int) + (0 - h) = 0 - h := by ring
    rw [if_pos rfl, e1, e2]
  constructor
  · show c.bubbles.map (moveBubble (2 * (0 - h))) ++
      [moveBubble (0 - h) (freshBubbleOf message left h)] = _
    rw [hmap, hnew]
  · intro b hb
    unfold send_message at hb
    simp only [List.mem_append, List.mem_map, List.mem_singleton] at hb
    rcases hb with ⟨a, ha, rfl⟩ | rfl
    · have := hr a ha
      unfold moveBubble
      split_ifs <;> simpa
    · rw [hnew]

theorem submitAll_capturing (prior : List (String × Int)) :
    ∀ (s : AppSys), (∀ p ∈ prior, p.1 ≠ "") →
    s.entryBound = true → s.entryEnabled = true → s.taskWindow = none →
    (submitAll prior s).entryBound = true ∧
    (submitAll prior s).entryEnabled = true ∧
    (submitAll prior s).taskWindow = none := by
  induction prior with
  | nil => intro s _ h1 h2 h3; exact ⟨h1, h2, h3⟩
  | cons p rest ih =>
    intro s hne h1 h2 h3
    rw [show submitAll (p :: rest) s = submitAll rest (submitLine p.1 p.2 s) from rfl]
    rw [submitLine_nonempty s p.1 p.2 h1 h2 (hne p (by simp))]
    exact ih _ (fun q hq => hne q (by simp [hq])) h1 h2 h3

/-- C3: while capturing tasks, submitting an empty line hands the collected
task list to the checklist window, disables and unbinds the entry, and
reaches the COMPLETE state, whatever the number of non-empty lines
submitted before (including zero); afterwards every further submission is a
no-op. -/
theorem C3_empty_line_completes (prior : List (String × Int))
    (hne : ∀ p ∈ prior, p.1 ≠ "") (hg1 hg2 hlast : Int) :
    workflowState (submitLine "" hlast (submitAll prior (freshSession hg1 hg2))) =
      WorkflowState.complete ∧
    (submitLine "" hlast (submitAll prior (freshSession hg1 hg2))).entryEnabled = false ∧
    (submitLine "" hlast (submitAll prior (freshSession hg1 hg2))).entryBound = false ∧
    (submitLine "" hlast (submitAll prior (freshSession hg1 hg2))).taskWindow =
      some { task_list := (submitAll prior (freshSession hg1 hg2)).tasks,
             destroyed := false } ∧
    ∀ (line : String) (hb : Int),
      submitLine line hb (submitLine "" hlast (submitAll prior (freshSession hg1 hg2))) =
        submitLine "" hlast (submitAll prior (freshSession hg1 hg2)) := by
  obtain ⟨hb, he, hw⟩ := submitAll_capturing prior (freshSession hg1 hg2) hne rfl rfl rfl
  rw [submitLine_empty (submitAll prior (freshSession hg1 hg2)) hlast hb he]
  refine ⟨rfl, rfl, rfl, rfl, ?_⟩
  intro line hbq
  apply submitLine_disabled
  simp

/-- C4: every non-empty submitted line is echoed as a right-side bubble and
appended verbatim at the end of the task list, with no filtering and no
deduplication; in particular submitting Buy milk, Walk dog and then an
empty line leaves the tasks [Buy milk, Walk dog] and the workflow
COMPLETE. -/
theorem C4_capture_order :
    (∀ (s : AppSys) (line : String) (hb : Int),
      s.entryBound = true → s.entryEnabled = true → line ≠ "" →
      (submitLine line hb s).tasks = s.tasks ++ [line] ∧
      (submitLine line hb s).cnv_chat.bubbles =
        s.cnv_chat.bubbles.map (moveBubble (2 * (0 - hb))) ++
          [moveBubble (0 - hb) (freshBubbleOf line false hb)]) ∧
    (∀ hg1 hg2 h1 h2 h3 : Int,
      (submitLine "" h3 (submitLine "Walk dog" h2 (submitLine "Buy milk" h1
        (freshSession hg1 hg2)))).tasks = ["Buy milk", "Walk dog"] ∧
      workflowState (submitLine "" h3 (submitLine "Walk dog" h2 (submitLine "Buy milk" h1
        (freshSession hg1 hg2)))) = WorkflowState.complete) := by
  constructor
  · intro s line hb h1 h2 h3
    rw [submitLine_nonempty s line hb h1 h2 h3]
    exact ⟨rfl, rfl⟩
  · intro hg1 hg2 h1 h2 h3
    rw [submitLine_nonempty (freshSession hg1 hg2) "Buy milk" h1 rfl rfl (by decide)]
    rw [submitLine_nonempty _ "Walk dog" h2 rfl rfl (by decide)]
    rw [submitLine_empty _ h3 rfl rfl]
    exact ⟨rfl, rfl⟩

/-- C10: the string appended to the task list by a non-empty submission is
the exact entry text as typed, while the bubble echoed on the canvas shows
that text wrapped at 20 columns; wrapping affects only the display. -/
theorem C10_raw_text_stored (s : AppSys) (hb : Int) (hne : s.entryText ≠ "") :
    (input_tasks hb s).tasks = s.tasks ++ [s.entryText] ∧
    (input_tasks hb s).cnv_chat.bubbles.getLast? =
      some (moveBubble (0 - hb) (freshBubbleOf s.entryText false hb)) ∧
    (freshBubbleOf s.entryText false hb).text = textwrap_fill s.entryText 20 := by
  have hlen : ¬ (s.entryText.length = 0) :=
    fun h => hne ((string_length_zero_iff _).mp h)
  unfold input_tasks
  rw [if_neg hlen]
  refine ⟨rfl, ?_, rfl⟩
  show (send_message s.cnv_chat s.entryText false hb).bubbles.getLast? = _
  unfold send_message
  simp [List.getLast?_concat]

/-- C6: when the persistence file exists at launch and parses, the
application opens the checklist directly on its contents with the root
window withdrawn and no chat session started; when it does not exist, a
fresh chat capture session starts instead. -/
theorem C6_startup_paths (contents : List Char) (s : LaunchS)
    (hs : startup (some contents) = some s) :
    s.rootShown = false ∧ s.chatStarted = false ∧
    s.checklist = loadTasks contents ∧ s.checklist.isSome = true ∧
    startup none = some ⟨true, true, none, none⟩ := by
  simp only [startup] at hs
  cases hload : loadTasks contents with
  | none => rw [hload] at hs; exact absurd hs (by simp)
  | some tl =>
    rw [hload] at hs
    obtain rfl := Option.some.inj hs
    exact ⟨rfl, rfl, rfl, rfl, rfl⟩

/-- A rendered bubble used as concrete test data. -/
def sampleBubble : RBubble :=
  { text := "hi", left := true, height := 20, yBody := 480, yStem := -20,
    rendered := true }

/-- A canvas holding one rendered bubble, used as concrete test data. -/
def sampleCanvas : ChatCanvasS :=
  { bubbles := [sampleBubble], exitShown := false }

/-- An application state in the capturing phase, used as concrete test
data. -/
def sampleSys : AppSys :=
  { tasks := ["Buy milk"], entryText := "", entryEnabled := true,
    entryBound := true, mainShown := true, cnv_chat := sampleCanvas,
    taskWindow := none, dataFile := none }

/-- The capturing state with a long line typed into the entry. -/
def sampleSys10 : AppSys :=
  { sampleSys with entryText := "remember to buy a lot of groceries" }

/-- An application state right after the hand-off to the checklist window,
used as concrete test data. -/
def sampleSys7 : AppSys :=
  { tasks := ["Buy milk"], entryText := "", entryEnabled := false,
    entryBound := false, mainShown := false,
    cnv_chat := canvas_delete_all (send_message { bubbles := [], exitShown := false }
      "Buy milk" false 25),
    taskWindow := some { task_list := ["Buy milk"], destroyed := false },
    dataFile := some (dumpTasks ["Buy milk"]) }

/-- The launch outcome on a persistence file holding ["Buy milk"]. -/
def sampleLaunch : LaunchS :=
  { rootShown := false, chatStarted := false, checklist := some ["Buy milk"],
    dataFileAfter := some (dumpTasks ["Buy milk"]) }

/-- C7 counterexample: pressing the completion button does not delete the
persistence file; it survives end_tasks unchanged. -/
theorem C7_counterexample :
    (end_tasks 20 20 sampleSys7).dataFile = some (dumpTasks ["Buy milk"]) ∧
    ¬ ((end_tasks 20 20 sampleSys7).dataFile = none) :=
  ⟨rfl, fun hcon => Option.noConfusion
    ((rfl : (end_tasks 20 20 sampleSys7).dataFile = some (dumpTasks ["Buy milk"])) ▸ hcon)⟩

/-- C7 amended: pressing the completion button with a live parent chat
window appends the two farewell left bubbles and then the exit control to
the chat canvas, shows the main window again, and destroys the checklist
window; the persistence file is left in place and is deleted only when the
exit control is subsequently activated. -/
theorem C7_end_tasks_amended (s : AppSys) (w : TaskWindowS) (h1 h2 : Int)
    (hw : s.taskWindow = some w) :
    (end_tasks h1 h2 s).cnv_chat =
      exit_btn (send_message (send_message s.cnv_chat
        "Another day, another dollar" true h1)
        "Alright, I\x27ll see ya tomorrow" true h2) ∧
    (end_tasks h1 h2 s).cnv_chat.exitShown = true ∧
    (end_tasks h1 h2 s).taskWindow = some { w with destroyed := true } ∧
    (end_tasks h1 h2 s).dataFile = s.dataFile ∧
    (app_exit (end_tasks h1 h2 s)).dataFile = none ∧
    (end_tasks h1 h2 s).mainShown = true := by
  refine ⟨rfl, rfl, ?_, rfl, rfl, rfl⟩
  show s.taskWindow.map _ = _
  rw [hw]
  rfl

/-- Witness for C1 at a concrete canvas. -/
theorem C1_send_message_layout_witness :
    (∀ b ∈ sampleCanvas.bubbles, b.rendered = true) ∧
    ((send_message sampleCanvas "Buy milk" false 30).bubbles =
      sampleCanvas.bubbles.map
        (fun b => { b with yBody := b.yBody - 2 * 30, yStem := b.yStem - 2 * 30 }) ++
        [⟨textwrap_fill "Buy milk" 20, false, 30, BUBBLE_PAD_Y - 30, 0 - 30, true⟩] ∧
      (∀ b ∈ (send_message sampleCanvas "Buy milk" false 30).bubbles,
        b.rendered = true)) :=
  ⟨by decide, C1_send_message_layout sampleCanvas (by decide) "Buy milk" false 30⟩

/-- Witness for C3 at one concrete preceding line. -/
theorem C3_empty_line_completes_witness :
    workflowState (submitLine "" 7 (submitAll [("Buy milk", 25)] (freshSession 10 12))) =
      WorkflowState.complete ∧
    (submitLine "" 7 (submitAll [("Buy milk", 25)] (freshSession 10 12))).entryEnabled
      = false ∧
    (submitLine "" 7 (submitAll [("Buy milk", 25)] (freshSession 10 12))).entryBound
      = false ∧
    (submitLine "" 7 (submitAll [("Buy milk", 25)] (freshSession 10 12))).taskWindow =
      some { task_list := (submitAll [("Buy milk", 25)] (freshSession 10 12)).tasks,
             destroyed := false } ∧
    ∀ (line : String) (hb : Int),
      submitLine line hb
          (submitLine "" 7 (submitAll [("Buy milk", 25)] (freshSession 10 12))) =
        submitLine "" 7 (submitAll [("Buy milk", 25)] (freshSession 10 12)) :=
  C3_empty_line_completes [("Buy milk", 25)] (by decide) 10 12 7

/-- Witness for C4 at a concrete state and line. -/
theorem C4_capture_order_witness :
    (submitLine "Walk dog" 25 sampleSys).tasks = sampleSys.tasks ++ ["Walk dog"] ∧
    (submitLine "Walk dog" 25 sampleSys).cnv_chat.bubbles =
      sampleSys.cnv_chat.bubbles.map (moveBubble (2 * (0 - 25))) ++
        [moveBubble (0 - 25) (freshBubbleOf "Walk dog" false 25)] :=
  C4_capture_order.1 sampleSys "Walk dog" 25 rfl rfl (by decide)

/-- Witness for C6 at a concrete persistence file. -/
theorem C6_startup_paths_witness :
    sampleLaunch.rootShown = false ∧ sampleLaunch.chatStarted = false ∧
    sampleLaunch.checklist = loadTasks ("[\"Buy milk\"]".data) ∧
    sampleLaunch.checklist.isSome = true ∧
    startup none = some ⟨true, true, none, none⟩ :=
  C6_startup_paths ("[\"Buy milk\"]".data) sampleLaunch (by decide)

/-- Witness for C7 at a concrete post-hand-off state. -/
theorem C7_end_tasks_amended_witness :
    (end_tasks 20 20 sampleSys7).cnv_chat =
      exit_btn (send_message (send_message sampleSys7.cnv_chat
        "Another day, another dollar" true 20)
        "Alright, I\x27ll see ya tomorrow" true 20) ∧
    (end_tasks 20 20 sampleSys7).cnv_chat.exitShown = true ∧
    (end_tasks 20 20 sampleSys7).taskWindow =
      some { task_list := ["Buy milk"], destroyed := true } ∧
    (end_tasks 20 20 sampleSys7).dataFile = sampleSys7.dataFile ∧
    (app_exit (end_tasks 20 20 sampleSys7)).dataFile = none ∧
    (end_tasks 20 20 sampleSys7).mainShown = true :=
  C7_end_tasks_amended sampleSys7 { task_list := ["Buy milk"], destroyed := false }
    20 20 rfl

/-- Witness for C10 at a line that wrapping visibly changes. -/
theorem C10_raw_text_stored_witness :
    textwrap_fill "remember to buy a lot of groceries" 20 ≠
      "remember to buy a lot of groceries" ∧
    ((input_tasks 25 sampleSys10).tasks =
        sampleSys10.tasks ++ [sampleSys10.entryText] ∧
      (input_tasks 25 sampleSys10).cnv_chat.bubbles.getLast? =
        some (moveBubble (0 - 25) (freshBubbleOf sampleSys10.entryText false 25)) ∧
      (freshBubbleOf sampleSys10.entryText false 25).text =
        textwrap_fill sampleSys10.entryText 20) :=
  ⟨by decide, C10_raw_text_stored sampleSys10 25 (by decide)⟩
